import Mathlib

/-!
Shallow embedding of the TikTok likes/views/trends pipeline
(`TikTokLikesViewsTrends.py`): the post normalizer, the daily aggregator
with gap filling, the 28-day rolling window engine, the trend and momentum
calculator, and the cohort heat-score normalization.

Conventions of the embedding:
* timestamps are integers (seconds since the Unix epoch), calendar days are
  integers (days since the epoch, the floor of timestamp / 86400);
* counters are `Nat`, derived metrics are `Rat`;
* a missing / NA / NaN numeric value is `none : Option Rat`;
* `replace(0, pd.NA)` on an int64 column coerces it to object dtype as soon
  as a zero is actually replaced, so a ratio column holds `pd.NA` (is
  object dtype) exactly when some day of the span has a zero denominator;
  feeding such a column to `rolling(...).mean()` or to
  `scipy.stats.linregress` raises `TypeError` — it does not produce NA
  results — and fallible steps are therefore modelled with `Except`;
* on a fully defined (float64) column, `rolling(window=w).mean()` with the
  default `min_periods = w` is NaN below index `w - 1` and the trailing
  mean from index `w - 1` on;
* `Series.mean` (a Python-level reduction, which also works on object
  dtype) skips NA values and is NA on an all-NA or empty series;
* a float result that is not a real number (the `inf`/`NaN` produced by
  dividing by a zero cohort mean in the heat_score_plus step, where the
  slope column is float64 because `pd.DataFrame` turns `None` into NaN)
  is modelled as `none`.
-/

/-- A normalized post event: `createTime` is a Unix timestamp in seconds,
the four counters come from the raw post's stats record. -/
structure PostEvent where
  createTime : Int
  views : Nat
  likes : Nat
  comments : Nat
  shares : Nat
deriving DecidableEq

/-- A raw post as returned by the upstream API: `createTime` is `none` when
the timestamp is missing or unparseable (`datetime.utcfromtimestamp`
raises on it); the four counters are the stats values after the `.get(_, 0)`
defaults have been applied. -/
structure RawPost where
  createTime : Option Int
  playCount : Nat
  diggCount : Nat
  commentCount : Nat
  shareCount : Nat
deriving DecidableEq

/-- `fetch_posts_last_year`: the list comprehension converts every raw post
whose timestamp is at least `one_year_ago`; the whole comprehension runs
inside a single `try/except`, so a record whose timestamp fails to parse
aborts the comprehension and the handler returns the empty list for the
entire batch. -/
def fetch_posts_last_year (one_year_ago : Int) (items : List RawPost) :
    List PostEvent :=
  if items.all (fun p => p.createTime.isSome) then
    (items.filter (fun p => one_year_ago ≤ p.createTime.getD 0)).map
      (fun p =>
        { createTime := p.createTime.getD 0
          views := p.playCount
          likes := p.diggCount
          comments := p.commentCount
          shares := p.shareCount })
  else []

/-- The UTC calendar day of a post (`df['createTime'].dt.date`), as days
since the epoch. -/
def eventDate (p : PostEvent) : Int := p.createTime.fdiv 86400

/-- The posts falling on calendar day `d` (one group of `df.groupby('date')`). -/
def postsOn (posts : List PostEvent) (d : Int) : List PostEvent :=
  posts.filter (fun p => eventDate p = d)

/-- Minimum of a list of days, `0` on the empty list (unused there). -/
def listMinD : List Int → Int
  | [] => 0
  | x :: xs => xs.foldl min x

/-- Maximum of a list of days, `0` on the empty list (unused there). -/
def listMaxD : List Int → Int
  | [] => 0
  | x :: xs => xs.foldl max x

/-- The smallest event date of a batch (start of the `asfreq('D')` index). -/
def minDate (posts : List PostEvent) : Int := listMinD (posts.map eventDate)

/-- The largest event date of a batch (end of the `asfreq('D')` index). -/
def maxDate (posts : List PostEvent) : Int := listMaxD (posts.map eventDate)

/-- One row of the dense daily table: per-day sums, the post count
(`videos`), and the five derived ratios, which are `none` exactly when
their denominator is zero (`replace(0, pd.NA)` makes the division NA). -/
structure DailyRecord where
  date : Int
  views : Nat
  likes : Nat
  comments : Nat
  shares : Nat
  videos : Nat
  likes_per_post : Option Rat
  comments_per_post : Option Rat
  shares_per_post : Option Rat
  views_per_post : Option Rat
  engagement_rate : Option Rat
deriving DecidableEq

/-- The daily row for calendar day `d`: sums and count over the day's
group (zero-filled by `asfreq('D', fill_value=0)` when the group is
empty), then the ratio columns. -/
def mkDaily (posts : List PostEvent) (d : Int) : DailyRecord :=
  let g := postsOn posts d
  let v := (g.map (fun p => p.views)).sum
  let l := (g.map (fun p => p.likes)).sum
  let c := (g.map (fun p => p.comments)).sum
  let s := (g.map (fun p => p.shares)).sum
  let n := g.length
  { date := d
    views := v
    likes := l
    comments := c
    shares := s
    videos := n
    likes_per_post := if n = 0 then none else some ((l : Rat) / (n : Rat))
    comments_per_post := if n = 0 then none else some ((c : Rat) / (n : Rat))
    shares_per_post := if n = 0 then none else some ((s : Rat) / (n : Rat))
    views_per_post := if n = 0 then none else some ((v : Rat) / (n : Rat))
    engagement_rate :=
      if v = 0 then none
      else some (((l : Rat) + (c : Rat) + (s : Rat)) / (v : Rat)) }

/-- The dense frame built by lines 78-95, right before the rolling loop:
the empty input gives an empty frame; otherwise `asfreq('D', fill_value=0)`
produces one row per calendar day from the smallest to the largest event
date, and the ratio columns are computed on it. -/
def build_daily_base (posts : List PostEvent) : List DailyRecord :=
  if posts.isEmpty then []
  else
    (List.range ((maxDate posts - minDate posts).toNat + 1)).map
      (fun (i : Nat) => mkDaily posts (minDate posts + (i : Int)))

/-- The ten numeric columns of the daily table that receive a
`_28day_avg` companion column. -/
inductive Col where
  | views
  | likes
  | comments
  | shares
  | videos
  | likes_per_post
  | comments_per_post
  | shares_per_post
  | views_per_post
  | engagement_rate
deriving DecidableEq

/-- The value of a column in a daily row; the raw counters are always
defined, the ratio columns carry their own optionality. -/
def colVal : Col → DailyRecord → Option Rat
  | .views, r => some (r.views : Rat)
  | .likes, r => some (r.likes : Rat)
  | .comments, r => some (r.comments : Rat)
  | .shares, r => some (r.shares : Rat)
  | .videos, r => some (r.videos : Rat)
  | .likes_per_post, r => r.likes_per_post
  | .comments_per_post, r => r.comments_per_post
  | .shares_per_post, r => r.shares_per_post
  | .views_per_post, r => r.views_per_post
  | .engagement_rate, r => r.engagement_rate

/-- The dataframe column name of a tracked metric. -/
def colName : Col → String
  | .views => "views"
  | .likes => "likes"
  | .comments => "comments"
  | .shares => "shares"
  | .videos => "videos"
  | .likes_per_post => "likes_per_post"
  | .comments_per_post => "comments_per_post"
  | .shares_per_post => "shares_per_post"
  | .views_per_post => "views_per_post"
  | .engagement_rate => "engagement_rate"

/-- Sequence a list of optional values: `some` of the list of values when
every entry is defined, `none` as soon as one entry is `none`. -/
def seqOpt : List (Option Rat) → Option (List Rat)
  | [] => some []
  | none :: _ => none
  | some x :: xs => (seqOpt xs).map (fun ys => x :: ys)

/-- The ten columns the rolling loop of lines 97-99 visits, in loop
order. -/
def rollColumns : List Col :=
  [Col.views, Col.likes, Col.comments, Col.shares, Col.videos,
   Col.likes_per_post, Col.comments_per_post, Col.shares_per_post,
   Col.views_per_post, Col.engagement_rate]

/-- `Series.rolling(window=w).mean()` on a fully defined numeric column
(the only kind the window engine accepts without raising), with the
default `min_periods = w`: NaN while fewer than `w` entries precede, the
trailing mean of the `w` values from index `w - 1` on. -/
def rolling_mean (w : Nat) (xs : List Rat) : List (Option Rat) :=
  (List.range xs.length).map (fun i =>
    if i + 1 < w then none
    else some ((((xs.take (i + 1)).drop (i + 1 - w)).sum) / (w : Rat)))

/-- One `daily[col].rolling(window=28).mean()` call of line 100: if the
column holds a `pd.NA` (it is then object dtype), the window engine's
float conversion raises `TypeError`; otherwise the rolling means are
computed. -/
def col_28day_avg (daily : List DailyRecord) (c : Col) :
    Except String (List (Option Rat)) :=
  match seqOpt (daily.map (colVal c)) with
  | none => .error "TypeError: cannot handle this type -> object"
  | some xs => .ok (rolling_mean 28 xs)

/-- `build_daily_stats`: builds the dense frame of lines 78-95 and then
runs the rolling loop of lines 97-100 over all ten numeric columns. A
zero-post day makes the four per-post ratio columns hold `pd.NA` and a
zero-view day does the same to `engagement_rate`; the first such column
makes its rolling call raise, and the exception escapes the function. The
function returns the table only when every column is fully defined (the
empty input returns the empty table before the loop runs). -/
def build_daily_stats (posts : List PostEvent) :
    Except String (List DailyRecord) :=
  if rollColumns.all
      (fun c => (seqOpt ((build_daily_base posts).map (colVal c))).isSome)
  then .ok (build_daily_base posts)
  else .error "TypeError: cannot handle this type -> object"

/-- `Series.mean()`: skips NA values, NA when no value is defined. -/
def seriesMean (xs : List (Option Rat)) : Option Rat :=
  let vs := xs.filterMap id
  if vs.length = 0 then none else some (vs.sum / (vs.length : Rat))

/-- One output row of `calculate_slopes`. -/
structure TrendPoint where
  username : String
  metric : String
  slope_window : String
  slope : Option Rat
deriving DecidableEq

/-- `df['date'].max()` over the daily table. -/
def today_of (df : List DailyRecord) : Int := listMaxD (df.map (fun r => r.date))

/-- `toordinal` of a day: days since the epoch shifted to the proleptic
Gregorian ordinal (1970-01-01 has ordinal 719163). -/
def toOrdinal (d : Int) : Int := d + 719163

/-- The records on or after `today - days` (the slope-window subset). -/
def slope_subset (df : List DailyRecord) (days : Int) : List DailyRecord :=
  df.filter (fun r => today_of df - days ≤ r.date)

/-- Ordinary least squares slope of `y` against `x`:
`Σ(x−x̄)(y−ȳ) / Σ(x−x̄)²`, which is what `scipy.stats.linregress`
returns as `.slope`. -/
def olsSlope (pts : List (Int × Rat)) : Rat :=
  let n : Rat := (pts.length : Rat)
  let xbar : Rat := (pts.map (fun p => (p.1 : Rat))).sum / n
  let ybar : Rat := (pts.map (fun p => p.2)).sum / n
  let num : Rat := (pts.map (fun p => ((p.1 : Rat) - xbar) * (p.2 - ybar))).sum
  let den : Rat := (pts.map (fun p => ((p.1 : Rat) - xbar) ^ 2)).sum
  num / den

/-- Sequence a list of observation pairs: defined when every `y` is. -/
def seqPts : List (Int × Option Rat) → Option (List (Int × Rat))
  | [] => some []
  | (_, none) :: _ => none
  | (x, some y) :: rest => (seqPts rest).map (fun ps => (x, y) :: ps)

/-- The slope emitted for one metric and one window: `None` when the
subset has at most one record, otherwise the least-squares slope of the
metric against the ordinal day. Faithful for tables whose selected metric
values are all defined — true of every table `calculate_slopes` receives,
since `build_daily_stats` raises on any frame with an NA ratio. On an
NA-bearing selection the real `linregress` would raise `TypeError`
(`bool(NA)` in its zero-variance check) before any row is emitted; that
branch is unreachable through `main` and is conservatively mapped to
`none` to keep the function total; no theorem relies on its value. -/
def slopeFor (df : List DailyRecord) (c : Col) (days : Int) : Option Rat :=
  let subset := slope_subset df days
  if 1 < subset.length then
    match seqPts (subset.map (fun r => (toOrdinal r.date, colVal c r))) with
    | none => none
    | some pts => some (olsSlope pts)
  else none

/-- The three slope windows of `calculate_slopes`. -/
def slope_windows : List (String × Int) :=
  [("slope_3mo", 90), ("slope_6mo", 180), ("slope_12mo", 365)]

/-- The nine slope rows of `calculate_slopes`: one per tracked metric and
window, in loop order. -/
def slope_rows (df : List DailyRecord) (username : String) : List TrendPoint :=
  ([Col.views, Col.likes, Col.engagement_rate].map (fun c =>
    slope_windows.map (fun lw =>
      { username := username
        metric := colName c
        slope_window := lw.1
        slope := slopeFor df c lw.2 }))).flatten

/-- `recent`: the records of the trailing 14 days. -/
def recentOf (df : List DailyRecord) : List DailyRecord :=
  df.filter (fun r => today_of df - 14 ≤ r.date)

/-- `prev`: the records of the 14 days before the trailing 14 days. -/
def prevOf (df : List DailyRecord) : List DailyRecord :=
  df.filter (fun r => r.date < today_of df - 14 ∧ today_of df - 28 ≤ r.date)

/-- `recent['views'].sum()` / `prev['views'].sum()` summand. -/
def sumViews (l : List DailyRecord) : Nat := (l.map (fun r => r.views)).sum

/-- `velocity = recent['views'].sum() - prev['views'].sum()` (Python int
subtraction, so an integer that may be negative). -/
def velocityOf (df : List DailyRecord) : Rat :=
  (sumViews (recentOf df) : Rat) - (sumViews (prevOf df) : Rat)

/-- `momentum_score`: the ratio of the two view sums when the previous
sum is positive, else `None`. -/
def momentumOf (df : List DailyRecord) : Option Rat :=
  if 0 < sumViews (prevOf df) then
    some ((sumViews (recentOf df) : Rat) / (sumViews (prevOf df) : Rat))
  else none

/-- `heat_score = velocity * recent['engagement_rate'].mean()`, falling
back to the multiplicative identity `1` when that mean is NA. -/
def heatOf (df : List DailyRecord) : Rat :=
  velocityOf df *
    ((seriesMean ((recentOf df).map (fun r => r.engagement_rate))).getD 1)

/-- The momentum-family rows: emitted only when both `recent` and `prev`
are non-empty, in source order. -/
def momentum_rows (df : List DailyRecord) (username : String) :
    List TrendPoint :=
  if recentOf df ≠ [] ∧ prevOf df ≠ [] then
    [{ username := username, metric := "velocity",
       slope_window := "14_day_delta", slope := some (velocityOf df) },
     { username := username, metric := "momentum_score",
       slope_window := "2wk_ratio", slope := momentumOf df },
     { username := username, metric := "heat_score",
       slope_window := "engagement_weighted", slope := some (heatOf df) }]
  else []

/-- `calculate_slopes`: the nine slope rows followed by the momentum
rows. -/
def calculate_slopes (df : List DailyRecord) (username : String) :
    List TrendPoint :=
  slope_rows df username ++ momentum_rows df username

/-- A row of the combined trend table, with the `heat_score_plus` column
added by `main` (`none` on every row that is not a heat-score row). -/
structure SlopeRow where
  username : String
  metric : String
  slope_window : String
  slope : Option Rat
  heat_score_plus : Option Rat
deriving DecidableEq

/-- `slope / avg_heat * 100` under float semantics: NA operands propagate
to NA, and a zero cohort mean makes the quotient a non-real float
(`inf` or `NaN`), which the embedding records as `none`. -/
def heat_plus (avg s : Option Rat) : Option Rat :=
  match avg, s with
  | some a, some v => if a = 0 then none else some (v / a * 100)
  | _, _ => none

/-- The trend-table post-processing of `main`: skipped entirely (no table)
when no TrendPoints exist; otherwise the heat-score rows receive
`heat_score_plus = slope / mean(heat slopes) * 100` whenever there is at
least one heat-score row, and every other row's `heat_score_plus`
stays NA. -/
def combine_trend_table (rows : List TrendPoint) : Option (List SlopeRow) :=
  if rows.isEmpty then none
  else
    let heat_scores := rows.filter (fun r => r.metric == "heat_score")
    if heat_scores.isEmpty then
      some (rows.map (fun r =>
        { username := r.username, metric := r.metric,
          slope_window := r.slope_window, slope := r.slope,
          heat_score_plus := none }))
    else
      let avg_heat := seriesMean (heat_scores.map (fun r => r.slope))
      some (rows.map (fun r =>
        { username := r.username, metric := r.metric,
          slope_window := r.slope_window, slope := r.slope,
          heat_score_plus :=
            if r.metric == "heat_score" then heat_plus avg_heat r.slope
            else none }))

theorem foldl_min_le_init (xs : List Int) (a : Int) : xs.foldl min a ≤ a := by
  induction xs generalizing a with
  | nil => exact le_refl a
  | cons x xs ih =>
    exact le_trans (ih (min a x)) (min_le_left a x)

theorem foldl_min_le_mem (xs : List Int) (a x : Int) (hx : x ∈ xs) :
    xs.foldl min a ≤ x := by
  induction xs generalizing a with
  | nil => cases hx
  | cons y ys ih =>
    rcases List.mem_cons.mp hx with h | h
    · subst h
      exact le_trans (foldl_min_le_init ys (min a x)) (min_le_right a x)
    · exact ih (min a y) h

theorem le_foldl_max_init (xs : List Int) (a : Int) : a ≤ xs.foldl max a := by
  induction xs generalizing a with
  | nil => exact le_refl a
  | cons x xs ih =>
    exact le_trans (le_max_left a x) (ih (max a x))

theorem le_foldl_max_mem (xs : List Int) (a x : Int) (hx : x ∈ xs) :
    x ≤ xs.foldl max a := by
  induction xs generalizing a with
  | nil => cases hx
  | cons y ys ih =>
    rcases List.mem_cons.mp hx with h | h
    · subst h
      exact le_trans (le_max_right a x) (le_foldl_max_init ys (max a x))
    · exact ih (max a y) h

theorem foldl_max_eq_or_mem (xs : List Int) (a : Int) :
    xs.foldl max a = a ∨ xs.foldl max a ∈ xs := by
  induction xs generalizing a with
  | nil => exact Or.inl rfl
  | cons x xs ih =>
    rcases ih (max a x) with h | h
    · rcases max_choice a x with hc | hc
      · exact Or.inl (by rw [List.foldl_cons, h, hc])
      · exact Or.inr (by rw [List.foldl_cons, h, hc]; exact List.mem_cons_self x xs)
    · exact Or.inr (List.mem_cons_of_mem x h)

theorem listMinD_le (l : List Int) (x : Int) (hx : x ∈ l) : listMinD l ≤ x := by
  cases l with
  | nil => cases hx
  | cons y ys =>
    rcases List.mem_cons.mp hx with h | h
    · subst h; exact foldl_min_le_init ys x
    · exact foldl_min_le_mem ys y x h

theorem le_listMaxD (l : List Int) (x : Int) (hx : x ∈ l) : x ≤ listMaxD l := by
  cases l with
  | nil => cases hx
  | cons y ys =>
    rcases List.mem_cons.mp hx with h | h
    · subst h; exact le_foldl_max_init ys x
    · exact le_foldl_max_mem ys y x h

theorem listMaxD_mem (l : List Int) (h : l ≠ []) : listMaxD l ∈ l := by
  cases l with
  | nil => exact absurd rfl h
  | cons y ys =>
    show ys.foldl max y ∈ y :: ys
    rcases foldl_max_eq_or_mem ys y with hc | hc
    · rw [hc]; exact List.mem_cons_self y ys
    · exact List.mem_cons_of_mem y hc

/-- The dense frame of lines 78-95 has the density the spec promises for
the whole aggregator: for every non-empty batch, one record per calendar
day from the minimum to the maximum event date, in consecutive ascending
order. (This is the table the rolling loop then consumes.) -/
theorem build_daily_base_density (posts : List PostEvent) (h : posts ≠ []) :
    (build_daily_base posts).length = (maxDate posts - minDate posts).toNat + 1
    ∧ (build_daily_base posts).map (fun r => r.date)
        = (List.range ((maxDate posts - minDate posts).toNat + 1)).map
            (fun (i : Nat) => minDate posts + (i : Int))
    ∧ (∀ i, (hi : i + 1 < (build_daily_base posts).length) →
        (build_daily_base posts)[i + 1].date
          = (build_daily_base posts)[i].date + 1)
    ∧ (∀ p ∈ posts, minDate posts ≤ eventDate p ∧ eventDate p ≤ maxDate posts) := by
  have hne : ¬ posts.isEmpty = true := by
    simp only [List.isEmpty_iff]
    exact h
  have hb : build_daily_base posts
      = (List.range ((maxDate posts - minDate posts).toNat + 1)).map
          (fun (i : Nat) => mkDaily posts (minDate posts + (i : Int))) := by
    rw [build_daily_base, if_neg hne]
  refine ⟨?_, ?_, ?_, ?_⟩
  · rw [hb]; simp
  · rw [hb, List.map_map]; rfl
  · intro i hi
    simp only [hb, List.getElem_map, List.getElem_range]
    show minDate posts + ((i + 1 : Nat) : Int) = minDate posts + (i : Int) + 1
    push_cast
    ring
  · intro p hp
    exact ⟨listMinD_le _ _ (List.mem_map_of_mem eventDate hp),
           le_listMaxD _ _ (List.mem_map_of_mem eventDate hp)⟩

/-- The §8 scenario: two posts on day 0 and one post on day 1. -/
def demoPosts : List PostEvent :=
  [{ createTime := 0, views := 6000, likes := 400, comments := 50, shares := 25 },
   { createTime := 100, views := 6000, likes := 400, comments := 50, shares := 25 },
   { createTime := 86400, views := 6000, likes := 400, comments := 50, shares := 25 }]

/-- Two posts with a calendar gap between them: days 0 and 2, no posts on
day 1. -/
def c1FailPosts : List PostEvent :=
  [{ createTime := 0, views := 5, likes := 1, comments := 0, shares := 0 },
   { createTime := 172800, views := 5, likes := 1, comments := 0, shares := 0 }]

/-- C1 (code bug): the aggregator constructs exactly the dense 3-day
zero-filled frame the claim describes — its dates are days 0, 1, 2 — but
the gap day's NA ratios make the ratio columns object dtype, the rolling
loop of line 100 then raises `TypeError`, and `build_daily_stats` raises
instead of returning the dense table for this non-empty input. -/
theorem build_daily_stats_raises_on_gap :
    (build_daily_base c1FailPosts).length = 3
    ∧ (build_daily_base c1FailPosts).map (fun r => r.date) = [0, 1, 2]
    ∧ build_daily_stats c1FailPosts
        = Except.error "TypeError: cannot handle this type -> object" := by
  refine ⟨by decide, by decide, rfl⟩

theorem mkDaily_date (posts : List PostEvent) (d : Int) :
    (mkDaily posts d).date = d := rfl

theorem mkDaily_views (posts : List PostEvent) (d : Int) :
    (mkDaily posts d).views = ((postsOn posts d).map (fun p => p.views)).sum := rfl

theorem mkDaily_likes (posts : List PostEvent) (d : Int) :
    (mkDaily posts d).likes = ((postsOn posts d).map (fun p => p.likes)).sum := rfl

theorem mkDaily_comments (posts : List PostEvent) (d : Int) :
    (mkDaily posts d).comments
      = ((postsOn posts d).map (fun p => p.comments)).sum := rfl

theorem mkDaily_shares (posts : List PostEvent) (d : Int) :
    (mkDaily posts d).shares = ((postsOn posts d).map (fun p => p.shares)).sum := rfl

theorem mkDaily_videos (posts : List PostEvent) (d : Int) :
    (mkDaily posts d).videos = (postsOn posts d).length := rfl

theorem mkDaily_likes_per_post (posts : List PostEvent) (d : Int) :
    (mkDaily posts d).likes_per_post
      = if (postsOn posts d).length = 0 then none
        else some (((mkDaily posts d).likes : Rat) / ((postsOn posts d).length : Rat)) := rfl

theorem mkDaily_comments_per_post (posts : List PostEvent) (d : Int) :
    (mkDaily posts d).comments_per_post
      = if (postsOn posts d).length = 0 then none
        else some (((mkDaily posts d).comments : Rat) / ((postsOn posts d).length : Rat)) := rfl

theorem mkDaily_shares_per_post (posts : List PostEvent) (d : Int) :
    (mkDaily posts d).shares_per_post
      = if (postsOn posts d).length = 0 then none
        else some (((mkDaily posts d).shares : Rat) / ((postsOn posts d).length : Rat)) := rfl

theorem mkDaily_views_per_post (posts : List PostEvent) (d : Int) :
    (mkDaily posts d).views_per_post
      = if (postsOn posts d).length = 0 then none
        else some (((mkDaily posts d).views : Rat) / ((postsOn posts d).length : Rat)) := rfl

theorem mkDaily_engagement (posts : List PostEvent) (d : Int) :
    (mkDaily posts d).engagement_rate
      = if (mkDaily posts d).views = 0 then none
        else some ((((mkDaily posts d).likes : Rat) + ((mkDaily posts d).comments : Rat)
            + ((mkDaily posts d).shares : Rat)) / ((mkDaily posts d).views : Rat)) := rfl

theorem mem_build_daily_base (posts : List PostEvent) (r : DailyRecord)
    (hr : r ∈ build_daily_base posts) : ∃ d : Int, r = mkDaily posts d := by
  by_cases hp : posts.isEmpty
  · rw [build_daily_base, if_pos hp] at hr
    cases hr
  · rw [build_daily_base, if_neg hp] at hr
    rcases List.mem_map.mp hr with ⟨i, _, hmk⟩
    exact ⟨minDate posts + (i : Int), hmk.symm⟩

/-- In the dense frame of lines 78-95, a day with no events has all sums
zero, `videos = 0`, and all five derived ratios NA; in general every
per-post ratio is `metric / videos` exactly when `videos > 0` and
`engagement_rate` is `(likes + comments + shares) / views` exactly when
`views > 0`, and both are NA (never zero) otherwise. These are the rows
lines 88-95 construct; whether the function returns them is a separate
question (it raises in the rolling loop whenever an NA ratio exists). -/
theorem daily_zero_fill (posts : List PostEvent) (r : DailyRecord)
    (hr : r ∈ build_daily_base posts) :
    (postsOn posts r.date = [] →
        r.views = 0 ∧ r.likes = 0 ∧ r.comments = 0 ∧ r.shares = 0 ∧ r.videos = 0
        ∧ r.likes_per_post = none ∧ r.comments_per_post = none
        ∧ r.shares_per_post = none ∧ r.views_per_post = none
        ∧ r.engagement_rate = none)
    ∧ (r.videos = 0 → r.likes_per_post = none ∧ r.comments_per_post = none
        ∧ r.shares_per_post = none ∧ r.views_per_post = none)
    ∧ (0 < r.videos →
        r.likes_per_post = some ((r.likes : Rat) / (r.videos : Rat))
        ∧ r.comments_per_post = some ((r.comments : Rat) / (r.videos : Rat))
        ∧ r.shares_per_post = some ((r.shares : Rat) / (r.videos : Rat))
        ∧ r.views_per_post = some ((r.views : Rat) / (r.videos : Rat)))
    ∧ (r.views = 0 → r.engagement_rate = none)
    ∧ (0 < r.views →
        r.engagement_rate
          = some (((r.likes : Rat) + (r.comments : Rat) + (r.shares : Rat))
              / (r.views : Rat))) := by
  rcases mem_build_daily_base posts r hr with ⟨d, rfl⟩
  refine ⟨?_, ?_, ?_, ?_, ?_⟩
  · intro h
    rw [mkDaily_date] at h
    simp [mkDaily_views, mkDaily_likes, mkDaily_comments, mkDaily_shares,
      mkDaily_videos, mkDaily_likes_per_post, mkDaily_comments_per_post,
      mkDaily_shares_per_post, mkDaily_views_per_post, mkDaily_engagement, h]
  · intro h
    rw [mkDaily_videos] at h
    simp [mkDaily_likes_per_post, mkDaily_comments_per_post,
      mkDaily_shares_per_post, mkDaily_views_per_post, h]
  · intro h
    rw [mkDaily_videos] at h
    have h0 : ¬ (postsOn posts d).length = 0 := by omega
    rw [mkDaily_likes_per_post, mkDaily_comments_per_post,
      mkDaily_shares_per_post, mkDaily_views_per_post,
      if_neg h0, if_neg h0, if_neg h0, if_neg h0, mkDaily_videos]
    exact ⟨rfl, rfl, rfl, rfl⟩
  · intro h
    rw [mkDaily_engagement, if_pos h]
  · intro h
    have h0 : ¬ (mkDaily posts d).views = 0 := by omega
    rw [mkDaily_engagement, if_neg h0]

/-- C5 (code bug): the aggregator builds the gap day's row exactly as the
claim describes — all sums 0, `videos = 0`, every ratio NA, never zero —
but that very row makes the ratio columns object dtype, the rolling loop
raises `TypeError`, and the table containing the claimed zero-fill row is
never returned. -/
theorem daily_zero_fill_bug :
    mkDaily c1FailPosts 1 ∈ build_daily_base c1FailPosts
    ∧ (mkDaily c1FailPosts 1).views = 0 ∧ (mkDaily c1FailPosts 1).likes = 0
    ∧ (mkDaily c1FailPosts 1).comments = 0 ∧ (mkDaily c1FailPosts 1).shares = 0
    ∧ (mkDaily c1FailPosts 1).videos = 0
    ∧ (mkDaily c1FailPosts 1).likes_per_post = none
    ∧ (mkDaily c1FailPosts 1).comments_per_post = none
    ∧ (mkDaily c1FailPosts 1).shares_per_post = none
    ∧ (mkDaily c1FailPosts 1).views_per_post = none
    ∧ (mkDaily c1FailPosts 1).engagement_rate = none
    ∧ build_daily_stats c1FailPosts
        = Except.error "TypeError: cannot handle this type -> object" := by
  refine ⟨by decide, by decide, by decide, by decide, by decide, by decide,
    by decide, by decide, by decide, by decide, by decide, rfl⟩

/-- A raw post whose timestamp parses and lies inside the window. -/
def goodPost : RawPost :=
  { createTime := some 100, playCount := 5, diggCount := 4,
    commentCount := 3, shareCount := 2 }

/-- A raw post with an unparseable timestamp. -/
def badPost : RawPost :=
  { createTime := none, playCount := 7, diggCount := 0,
    commentCount := 0, shareCount := 0 }

/-- The PostEvent the good raw post normalizes to. -/
def goodEvent : PostEvent :=
  { createTime := 100, views := 5, likes := 4, comments := 3, shares := 2 }

/-- C2 counterexample: one malformed record is fatal to the whole batch.
Alone, the well-formed record normalizes to its event; adding a record
with an unparseable timestamp makes the normalizer return the empty list,
so the well-formed record's event is dropped too, contradicting the claim
that only the malformed record is skipped. -/
theorem fetch_drops_whole_batch_cex :
    fetch_posts_last_year 0 [goodPost] = [goodEvent]
    ∧ fetch_posts_last_year 0 [goodPost, badPost] = []
    ∧ goodEvent ∉ fetch_posts_last_year 0 [goodPost, badPost] := by decide

/-- C2 amended: the normalizer never raises (it is a total function into
lists), but a batch containing any record with an unparseable timestamp
yields the empty list — the exception aborts the whole comprehension —
dropping the well-formed records of the batch as well. -/
theorem fetch_malformed_is_batch_fatal (one_year_ago : Int)
    (items : List RawPost) (hbad : ∃ p ∈ items, p.createTime = none) :
    fetch_posts_last_year one_year_ago items = [] := by
  rcases hbad with ⟨p, hp, hnone⟩
  have hall : items.all (fun p => p.createTime.isSome) = false := by
    rw [List.all_eq_false]
    exact ⟨p, hp, by rw [hnone]; decide⟩
  rw [fetch_posts_last_year, if_neg]
  rw [hall]
  decide

/-- Witness for the amended C2 at a concrete two-record batch. -/
theorem fetch_malformed_is_batch_fatal_witness :
    (∃ p ∈ [goodPost, badPost], p.createTime = none)
    ∧ fetch_posts_last_year 0 [goodPost, badPost] = [] :=
  ⟨by decide, fetch_malformed_is_batch_fatal 0 [goodPost, badPost] (by decide)⟩

/-- The momentum-family metrics. -/
def isFamily (r : TrendPoint) : Bool :=
  r.metric == "velocity" || r.metric == "momentum_score"
    || r.metric == "heat_score"

theorem slope_rows_filter_family (df : List DailyRecord) (u : String) :
    (slope_rows df u).filter isFamily = [] := rfl

theorem momentum_rows_pos (df : List DailyRecord) (u : String)
    (hr : recentOf df ≠ []) (hp : prevOf df ≠ []) :
    momentum_rows df u
      = [{ username := u, metric := "velocity",
           slope_window := "14_day_delta", slope := some (velocityOf df) },
         { username := u, metric := "momentum_score",
           slope_window := "2wk_ratio", slope := momentumOf df },
         { username := u, metric := "heat_score",
           slope_window := "engagement_weighted", slope := some (heatOf df) }] := by
  rw [momentum_rows, if_pos ⟨hr, hp⟩]

theorem momentum_rows_neg (df : List DailyRecord) (u : String)
    (h : recentOf df = [] ∨ prevOf df = []) : momentum_rows df u = [] := by
  rw [momentum_rows, if_neg]
  rintro ⟨h1, h2⟩
  rcases h with h | h
  · exact h1 h
  · exact h2 h

/-- C7: the momentum-family TrendPoints (velocity, momentum_score,
heat_score) are emitted exactly when both the `recent` and the `prev`
sub-sequence are non-empty: if either is empty none of the three rows
appears, and when both are non-empty exactly those three rows appear. -/
theorem momentum_skip_rule (df : List DailyRecord) (u : String) :
    ((recentOf df = [] ∨ prevOf df = []) →
        (calculate_slopes df u).filter isFamily = [])
    ∧ (recentOf df ≠ [] → prevOf df ≠ [] →
        (calculate_slopes df u).filter isFamily
          = [{ username := u, metric := "velocity",
               slope_window := "14_day_delta", slope := some (velocityOf df) },
             { username := u, metric := "momentum_score",
               slope_window := "2wk_ratio", slope := momentumOf df },
             { username := u, metric := "heat_score",
               slope_window := "engagement_weighted", slope := some (heatOf df) }]) := by
  constructor
  · intro h
    rw [calculate_slopes, List.filter_append, slope_rows_filter_family,
      momentum_rows_neg df u h]
    rfl
  · intro hr hp
    rw [calculate_slopes, List.filter_append, slope_rows_filter_family,
      momentum_rows_pos df u hr hp]
    rfl

/-- A two-row series 15 days apart: `recent` holds the last row, `prev`
the first. -/
def dfDemo : List DailyRecord :=
  [{ date := 0, views := 10, likes := 0, comments := 0, shares := 0,
     videos := 1, likes_per_post := none, comments_per_post := none,
     shares_per_post := none, views_per_post := none, engagement_rate := none },
   { date := 15, views := 20, likes := 0, comments := 0, shares := 0,
     videos := 1, likes_per_post := none, comments_per_post := none,
     shares_per_post := none, views_per_post := none, engagement_rate := none }]

/-- Witness for C7: at the demo series both sub-sequences are non-empty
and the three momentum rows are exactly the filtered output. -/
theorem momentum_skip_rule_witness :
    recentOf dfDemo ≠ [] ∧ prevOf dfDemo ≠ []
    ∧ (calculate_slopes dfDemo "u").filter isFamily
        = [{ username := "u", metric := "velocity",
             slope_window := "14_day_delta", slope := some (velocityOf dfDemo) },
           { username := "u", metric := "momentum_score",
             slope_window := "2wk_ratio", slope := momentumOf dfDemo },
           { username := "u", metric := "heat_score",
             slope_window := "engagement_weighted", slope := some (heatOf dfDemo) }] :=
  ⟨by decide, by decide,
    (momentum_skip_rule dfDemo "u").2 (by decide) (by decide)⟩

theorem calculate_slopes_filter_heat (df : List DailyRecord) (u : String)
    (hr : recentOf df ≠ []) (hp : prevOf df ≠ []) :
    (calculate_slopes df u).filter (fun r => r.metric == "heat_score")
      = [{ username := u, metric := "heat_score",
           slope_window := "engagement_weighted", slope := some (heatOf df) }] := by
  rw [calculate_slopes, List.filter_append]
  have h1 : (slope_rows df u).filter (fun r => r.metric == "heat_score") = [] := rfl
  rw [h1, momentum_rows_pos df u hr hp]
  rfl

/-- C8: whenever the momentum rows are emitted, the heat-score row's value
is `velocity * mean(recent.engagement_rate)` when that mean is defined,
and `velocity * 1` (the multiplicative-identity fallback, not NA) when the
mean is undefined. -/
theorem heat_score_fallback (df : List DailyRecord) (u : String)
    (hr : recentOf df ≠ []) (hp : prevOf df ≠ []) :
    (∀ m : Rat,
      seriesMean ((recentOf df).map (fun r => r.engagement_rate)) = some m →
      ((calculate_slopes df u).filter (fun r => r.metric == "heat_score")).map
          (fun r => r.slope)
        = [some (velocityOf df * m)])
    ∧ (seriesMean ((recentOf df).map (fun r => r.engagement_rate)) = none →
      ((calculate_slopes df u).filter (fun r => r.metric == "heat_score")).map
          (fun r => r.slope)
        = [some (velocityOf df * 1)]) := by
  have hf := calculate_slopes_filter_heat df u hr hp
  constructor
  · intro m hm
    rw [hf]
    show [some (heatOf df)] = [some (velocityOf df * m)]
    rw [heatOf, hm]
    rfl
  · intro hm
    rw [hf]
    show [some (heatOf df)] = [some (velocityOf df * 1)]
    rw [heatOf, hm]
    rfl

/-- Witness for C8 at the demo series, where every `engagement_rate` in
`recent` is NA, so the mean is undefined and the fallback multiplies by 1. -/
theorem heat_score_fallback_witness :
    recentOf dfDemo ≠ [] ∧ prevOf dfDemo ≠ []
    ∧ seriesMean ((recentOf dfDemo).map (fun r => r.engagement_rate)) = none
    ∧ ((calculate_slopes dfDemo "u").filter
        (fun r => r.metric == "heat_score")).map (fun r => r.slope)
      = [some (velocityOf dfDemo * 1)] :=
  ⟨by decide, by decide, by decide,
    (heat_score_fallback dfDemo "u" (by decide) (by decide)).2 (by decide)⟩

theorem seqOpt_eq_none (l : List (Option Rat)) (h : none ∈ l) :
    seqOpt l = none := by
  induction l with
  | nil => cases h
  | cons x xs ih =>
    cases x with
    | none => rfl
    | some a =>
      have hx : none ∈ xs := by
        rcases List.mem_cons.mp h with h1 | h1
        · cases h1
        · exact h1
      show (seqOpt xs).map _ = none
      rw [ih hx]
      rfl

theorem seqOpt_isSome (l : List (Option Rat)) (h : ∀ x ∈ l, x ≠ none) :
    ∃ ys, seqOpt l = some ys := by
  induction l with
  | nil => exact ⟨[], rfl⟩
  | cons x xs ih =>
    cases x with
    | none => exact absurd rfl (h none (List.mem_cons_self none xs))
    | some a =>
      rcases ih (fun y hy => h y (List.mem_cons_of_mem _ hy)) with ⟨ys, hys⟩
      refine ⟨a :: ys, ?_⟩
      show (seqOpt xs).map _ = _
      rw [hys]
      rfl

theorem seqOpt_length (l : List (Option Rat)) (xs : List Rat)
    (h : seqOpt l = some xs) : xs.length = l.length := by
  induction l generalizing xs with
  | nil =>
    cases h
    rfl
  | cons x t ih =>
    cases x with
    | none => cases h
    | some a =>
      rcases hrec : seqOpt t with _ | ys
      · rw [show seqOpt (some a :: t) = (seqOpt t).map (fun ys => a :: ys) from rfl,
          hrec] at h
        cases h
      · rw [show seqOpt (some a :: t) = (seqOpt t).map (fun ys => a :: ys) from rfl,
          hrec] at h
        cases h
        simp [ih ys hrec]

theorem seqOpt_defined (l : List (Option Rat)) (xs : List Rat)
    (h : seqOpt l = some xs) : ∀ x ∈ l, x ≠ none := by
  intro x hx hcon
  subst hcon
  rw [seqOpt_eq_none l hx] at h
  cases h

theorem seqPts_isSome (l : List (Int × Option Rat))
    (h : ∀ p ∈ l, p.2 ≠ none) : ∃ pts, seqPts l = some pts := by
  induction l with
  | nil => exact ⟨[], rfl⟩
  | cons p t ih =>
    rcases p with ⟨x, _ | y⟩
    · exact absurd rfl (h (x, none) (List.mem_cons_self _ _))
    · rcases ih (fun q hq => h q (List.mem_cons_of_mem _ hq)) with ⟨pts, hpts⟩
      refine ⟨(x, y) :: pts, ?_⟩
      show (seqPts t).map _ = _
      rw [hpts]
      rfl

theorem col_mem_rollColumns (c : Col) : c ∈ rollColumns := by
  cases c <;> decide

/-- Inversion for a successful aggregation: the returned table is the
dense base frame and every one of the ten columns is fully defined
(otherwise the rolling loop would have raised). -/
theorem build_daily_stats_ok (posts : List PostEvent) (df : List DailyRecord)
    (hok : build_daily_stats posts = .ok df) :
    df = build_daily_base posts
    ∧ ∀ c : Col, ∃ xs : List Rat, seqOpt (df.map (colVal c)) = some xs := by
  rw [build_daily_stats] at hok
  by_cases hg : (rollColumns.all
      (fun c => (seqOpt ((build_daily_base posts).map (colVal c))).isSome)) = true
  · rw [if_pos hg] at hok
    have hdf : build_daily_base posts = df := by
      cases hok
      rfl
    subst hdf
    refine ⟨rfl, ?_⟩
    intro c
    have hs := List.all_eq_true.mp hg c (col_mem_rollColumns c)
    exact Option.isSome_iff_exists.mp hs
  · rw [if_neg hg] at hok
    cases hok

theorem rolling_mean_getElem (w : Nat) (xs : List Rat) (i : Nat)
    (hi : i < xs.length) :
    (rolling_mean w xs)[i]?
      = some (if i + 1 < w then none
          else some ((((xs.take (i + 1)).drop (i + 1 - w)).sum) / (w : Rat))) := by
  rw [rolling_mean]
  have hi' : i < ((List.range xs.length).map (fun i =>
      if i + 1 < w then none
      else some ((((xs.take (i + 1)).drop (i + 1 - w)).sum) / (w : Rat)))).length := by
    simpa using hi
  rw [List.getElem?_eq_getElem hi', List.getElem_map, List.getElem_range]

/-- C3 (amended): on every table the aggregator actually returns — all
ten numeric columns fully defined, since `build_daily_stats` raises
otherwise — each column's `rolling(28).mean()` succeeds and is undefined
at every index `i < 27` and defined at every index `i ≥ 27`, where it
equals the arithmetic mean of the trailing 28 values (at index 27, the
mean of the first 28 values). On a frame with an NA ratio entry the
rolling call raises instead of producing a column. -/
theorem rolling_window_boundary (posts : List PostEvent)
    (df : List DailyRecord) (hok : build_daily_stats posts = .ok df)
    (c : Col) (i : Nat) (hi : i < df.length) :
    ∃ xs : List Rat, seqOpt (df.map (colVal c)) = some xs
      ∧ col_28day_avg df c = .ok (rolling_mean 28 xs)
      ∧ (rolling_mean 28 xs).length = df.length
      ∧ (i + 1 < 28 → (rolling_mean 28 xs)[i]? = some none)
      ∧ (28 ≤ i + 1 →
          (rolling_mean 28 xs)[i]?
            = some (some ((((xs.take (i + 1)).drop (i + 1 - 28)).sum)
                / ((28 : Nat) : Rat)))) := by
  rcases (build_daily_stats_ok posts df hok).2 c with ⟨xs, hxs⟩
  have hxl : xs.length = df.length := by
    rw [seqOpt_length _ _ hxs]
    simp
  have hix : i < xs.length := by omega
  refine ⟨xs, hxs, ?_, ?_, ?_, ?_⟩
  · rw [col_28day_avg, hxs]
  · rw [rolling_mean]
    simp [hxl]
  · intro h
    rw [rolling_mean_getElem 28 xs i hix, if_pos h]
  · intro h
    rw [rolling_mean_getElem 28 xs i hix, if_neg (by omega)]

/-- Two posts 28 days apart: the dense frame spans 29 days with 27
zero-activity gap days, whose ratio columns hold `pd.NA`. -/
def gapPosts : List PostEvent :=
  [{ createTime := 0, views := 10, likes := 1, comments := 0, shares := 0 },
   { createTime := 28 * 86400, views := 10, likes := 1, comments := 0, shares := 0 }]

/-- C3 counterexample: on the 29-day dense frame of `gapPosts` the
`engagement_rate` column holds `pd.NA`, so its `rolling(28).mean()` call
raises `TypeError` and `build_daily_stats` raises with it — no rolling
mean is defined at index 27 (or anywhere) for this series, where the
claim requires a defined value at every index ≥ 27. -/
theorem rolling_gap_raises_cex :
    (build_daily_base gapPosts).length = 29
    ∧ col_28day_avg (build_daily_base gapPosts) Col.engagement_rate
        = Except.error "TypeError: cannot handle this type -> object"
    ∧ build_daily_stats gapPosts
        = Except.error "TypeError: cannot handle this type -> object" := by
  refine ⟨by decide, rfl, rfl⟩

/-- 28 consecutive days with one post of 1 view and 1 like each: no zero
day, so the aggregation succeeds. -/
def densePosts : List PostEvent :=
  (List.range 28).map (fun (i : Nat) =>
    { createTime := (i : Int) * 86400, views := 1, likes := 1,
      comments := 0, shares := 0 })

set_option maxRecDepth 8000

/-- Witness for C3 on the successfully aggregated 28-day dense batch, at
index 27 = windowSize − 1. -/
theorem rolling_window_boundary_witness :
    build_daily_stats densePosts = .ok (build_daily_base densePosts)
    ∧ 27 < (build_daily_base densePosts).length
    ∧ ∃ xs : List Rat,
        seqOpt ((build_daily_base densePosts).map (colVal Col.views)) = some xs
        ∧ col_28day_avg (build_daily_base densePosts) Col.views
            = .ok (rolling_mean 28 xs)
        ∧ (rolling_mean 28 xs).length = (build_daily_base densePosts).length
        ∧ (27 + 1 < 28 → (rolling_mean 28 xs)[27]? = some none)
        ∧ (28 ≤ 27 + 1 →
            (rolling_mean 28 xs)[27]?
              = some (some ((((xs.take (27 + 1)).drop (27 + 1 - 28)).sum)
                  / ((28 : Nat) : Rat)))) :=
  ⟨rfl, by decide,
    rolling_window_boundary densePosts (build_daily_base densePosts) rfl
      Col.views 27 (by decide)⟩

theorem momentum_rows_filter_drop (df : List DailyRecord) (u : String)
    (p : TrendPoint → Bool)
    (h1 : ∀ s, p ⟨u, "velocity", "14_day_delta", s⟩ = false)
    (h2 : ∀ s, p ⟨u, "momentum_score", "2wk_ratio", s⟩ = false)
    (h3 : ∀ s, p ⟨u, "heat_score", "engagement_weighted", s⟩ = false) :
    (momentum_rows df u).filter p = [] := by
  rw [momentum_rows]
  split
  · simp [List.filter, h1, h2, h3]
  · rfl

/-- C4: on every table the aggregator returns (the only tables
`calculate_slopes` receives — every metric value on them is defined),
`calculate_slopes` emits for each tracked metric and trailing window
exactly one TrendPoint; its slope is undefined when the selection has at
most one record, and otherwise equals the ordinary least-squares
coefficient of the metric against the ordinal day of the selected
observations, which always exist (third conjunct). -/
theorem slopes_ols (posts : List PostEvent) (df : List DailyRecord)
    (u : String) (c : Col)
    (hc : c = Col.views ∨ c = Col.likes ∨ c = Col.engagement_rate)
    (lw : String × Int) (hlw : lw ∈ slope_windows)
    (hok : build_daily_stats posts = .ok df) :
    ((calculate_slopes df u).filter
        (fun r => r.metric == colName c && r.slope_window == lw.1)).map
        (fun r => r.slope)
      = [slopeFor df c lw.2]
    ∧ ((slope_subset df lw.2).length ≤ 1 → slopeFor df c lw.2 = none)
    ∧ (∃ pts : List (Int × Rat),
        seqPts ((slope_subset df lw.2).map
          (fun r => (toOrdinal r.date, colVal c r))) = some pts)
    ∧ (∀ pts : List (Int × Rat), 1 < (slope_subset df lw.2).length →
        seqPts ((slope_subset df lw.2).map
            (fun r => (toOrdinal r.date, colVal c r))) = some pts →
        slopeFor df c lw.2 = some (olsSlope pts)) := by
  refine ⟨?_, ?_, ?_, ?_⟩
  · have hdrop := momentum_rows_filter_drop df u
      (fun r => r.metric == colName c && r.slope_window == lw.1)
    rw [calculate_slopes, List.filter_append]
    rcases hc with rfl | rfl | rfl <;>
      rcases List.mem_cons.mp hlw with rfl |
        hlw1 <;>
      first
      | (rw [hdrop (fun s => rfl) (fun s => rfl) (fun s => rfl), List.append_nil]
         rfl)
      | (rcases List.mem_cons.mp hlw1 with rfl | hlw2 <;>
         first
         | (rw [hdrop (fun s => rfl) (fun s => rfl) (fun s => rfl), List.append_nil]
            rfl)
         | (rcases List.mem_cons.mp hlw2 with rfl | hlw3 <;>
            first
            | (rw [hdrop (fun s => rfl) (fun s => rfl) (fun s => rfl), List.append_nil]
               rfl)
            | cases hlw3))
  · intro hle
    simp only [slopeFor]
    rw [if_neg (by omega)]
  · rcases (build_daily_stats_ok posts df hok).2 c with ⟨xs, hxs⟩
    have hdef : ∀ r ∈ df, colVal c r ≠ none := fun r hr =>
      seqOpt_defined _ _ hxs _ (List.mem_map_of_mem _ hr)
    refine seqPts_isSome _ ?_
    intro p hp
    rcases List.mem_map.mp hp with ⟨r, hr, rfl⟩
    exact hdef r (List.mem_of_mem_filter hr)
  · intro pts hgt hseq
    simp only [slopeFor]
    rw [if_pos hgt, hseq]

/-- Witness for C4 at the successfully aggregated demo batch: the views
slope row for the 3-month window is emitted with value `slopeFor`. -/
theorem slopes_ols_witness :
    (("slope_3mo", (90 : Int)) ∈ slope_windows)
    ∧ build_daily_stats demoPosts = .ok (build_daily_base demoPosts)
    ∧ ((calculate_slopes (build_daily_base demoPosts) "u").filter
        (fun r => r.metric == colName Col.views && r.slope_window == "slope_3mo")).map
        (fun r => r.slope)
      = [slopeFor (build_daily_base demoPosts) Col.views 90] :=
  ⟨by decide, rfl,
    (slopes_ols demoPosts (build_daily_base demoPosts) "u" Col.views (Or.inl rfl)
      ("slope_3mo", 90) (by decide) rfl).1⟩

/-- C9: on a non-empty dense daily series the `recent` sub-sequence always
contains the last record (the cutoff `lastDate - 14` never excludes the
maximum date), so momentum emission depends only on `prev`: the three
momentum-family rows are emitted exactly when the series spans strictly
more than 14 days, i.e. when the minimum date is below `lastDate - 14`. -/
theorem momentum_span_rule (df : List DailyRecord) (d0 : Int) (u : String)
    (hne : df ≠ [])
    (hdense : df.map (fun r => r.date)
      = (List.range df.length).map (fun (i : Nat) => d0 + (i : Int))) :
    df.getLast hne ∈ recentOf df
    ∧ (prevOf df ≠ [] ↔ d0 + 14 < today_of df)
    ∧ ((calculate_slopes df u).filter isFamily ≠ [] ↔ d0 + 14 < today_of df) := by
  have hlen0 : 0 < df.length := List.length_pos.mpr hne
  have hdate : ∀ i, (hi : i < df.length) → df[i].date = d0 + (i : Int) := by
    intro i hi
    have hi1 : i < (df.map (fun r => r.date)).length := by simpa using hi
    have h1 : (df.map (fun r => r.date))[i]? = some (df[i].date) := by
      rw [List.getElem?_eq_getElem hi1, List.getElem_map]
    have hi2 : i < ((List.range df.length).map
        (fun (i : Nat) => d0 + (i : Int))).length := by
      simpa using hi
    have h2 : ((List.range df.length).map (fun (i : Nat) => d0 + (i : Int)))[i]?
        = some (d0 + (i : Int)) := by
      rw [List.getElem?_eq_getElem hi2, List.getElem_map, List.getElem_range]
    rw [hdense] at h1
    exact Option.some.inj (h1.symm.trans h2)
  have hmemdate : ∀ r ∈ df, ∃ i : Nat, i < df.length ∧ r.date = d0 + (i : Int) := by
    intro r hr
    rcases List.mem_iff_getElem.mp hr with ⟨i, hi, hieq⟩
    exact ⟨i, hi, by rw [← hieq]; exact hdate i hi⟩
  have hub : ∀ r ∈ df, r.date ≤ d0 + ((df.length - 1 : Nat) : Int) := by
    intro r hr
    rcases hmemdate r hr with ⟨i, hi, hrd⟩
    rw [hrd]
    have : (i : Int) ≤ ((df.length - 1 : Nat) : Int) := by omega
    omega
  have hlast_date : (df.getLast hne).date = d0 + ((df.length - 1 : Nat) : Int) := by
    rw [List.getLast_eq_getElem]
    exact hdate (df.length - 1) (by omega)
  have htoday : today_of df = d0 + ((df.length - 1 : Nat) : Int) := by
    apply le_antisymm
    · have hmne : df.map (fun r => r.date) ≠ [] := by simpa using hne
      have hmem := listMaxD_mem _ hmne
      rcases List.mem_map.mp hmem with ⟨r, hr, hrd⟩
      rw [today_of, ← hrd]
      exact hub r hr
    · rw [← hlast_date]
      exact le_listMaxD _ _ (List.mem_map_of_mem _ (List.getLast_mem hne))
  have hlast_recent : df.getLast hne ∈ recentOf df := by
    rw [recentOf]
    refine List.mem_filter.mpr ⟨List.getLast_mem hne, ?_⟩
    rw [decide_eq_true_eq, hlast_date, htoday]
    omega
  have hprev_iff : prevOf df ≠ [] ↔ d0 + 14 < today_of df := by
    constructor
    · intro hp
      rcases List.exists_mem_of_ne_nil _ hp with ⟨x, hx⟩
      have hx' := List.mem_filter.mp hx
      have hcond := of_decide_eq_true hx'.2
      rcases hmemdate x hx'.1 with ⟨i, hi, hxd⟩
      have hd0 : d0 ≤ x.date := by rw [hxd]; omega
      have h1 := hcond.1
      omega
    · intro h
      by_cases hcase : d0 ≤ today_of df - 28
      · have hj : (today_of df - 28 - d0).toNat < df.length := by omega
        refine List.ne_nil_of_mem (a := df[(today_of df - 28 - d0).toNat]) ?_
        rw [prevOf]
        refine List.mem_filter.mpr ⟨List.getElem_mem _, ?_⟩
        rw [decide_eq_true_eq, hdate _ hj]
        omega
      · refine List.ne_nil_of_mem (a := df[0]) ?_
        rw [prevOf]
        refine List.mem_filter.mpr ⟨List.getElem_mem _, ?_⟩
        rw [decide_eq_true_eq, hdate 0 hlen0]
        omega
  refine ⟨hlast_recent, hprev_iff, ?_⟩
  have hrec_ne : recentOf df ≠ [] := List.ne_nil_of_mem hlast_recent
  constructor
  · intro hfam
    by_contra hnot
    have hprev_empty : prevOf df = [] := by
      by_contra hpne
      exact hnot (hprev_iff.mp hpne)
    apply hfam
    rw [calculate_slopes, List.filter_append, slope_rows_filter_family,
      momentum_rows_neg df u (Or.inr hprev_empty)]
    rfl
  · intro h
    rw [calculate_slopes, List.filter_append, slope_rows_filter_family,
      momentum_rows_pos df u hrec_ne (hprev_iff.mpr h)]
    simp [isFamily]

/-- A 16-day entity that posts every day: 15 views on day 0 and 1 view on
each of days 1-15, so no column is ever NA, the aggregation succeeds, and
recent and prev view sums are both 15 (velocity 0). -/
def postsV : List PostEvent :=
  { createTime := 0, views := 15, likes := 1, comments := 0, shares := 0 }
    :: (List.range 15).map (fun (i : Nat) =>
      { createTime := ((i : Int) + 1) * 86400, views := 1, likes := 0,
        comments := 0, shares := 0 })

/-- Witness for C9 on the dense 16-day series of `postsV`: the span is
15 days, so the momentum rows are emitted. -/
theorem momentum_span_rule_witness :
    build_daily_base postsV ≠ []
    ∧ (build_daily_base postsV).map (fun r => r.date)
        = (List.range (build_daily_base postsV).length).map
            (fun (i : Nat) => 0 + (i : Int))
    ∧ ((calculate_slopes (build_daily_base postsV) "u").filter isFamily ≠ []
        ↔ (0 : Int) + 14 < today_of (build_daily_base postsV)) := by
  refine ⟨by decide, by decide, ?_⟩
  exact (momentum_span_rule (build_daily_base postsV) 0 "u" (by decide)
    (by decide)).2.2

theorem combine_trend_table_eq (rows : List TrendPoint) (hne : rows ≠ [])
    (hheat : rows.filter (fun r => r.metric == "heat_score") ≠ []) :
    combine_trend_table rows
      = some (rows.map (fun r =>
          { username := r.username, metric := r.metric,
              slope_window := r.slope_window, slope := r.slope,
              heat_score_plus :=
                if r.metric == "heat_score" then
                  heat_plus (seriesMean ((rows.filter
                    (fun r => r.metric == "heat_score")).map (fun r => r.slope)))
                    r.slope
                else none })) := by
  simp only [combine_trend_table]
  rw [if_neg (by simp [List.isEmpty_iff, hne]),
    if_neg (by simp [List.isEmpty_iff, hheat])]

/-- C6 (amended): when TrendPoints exist and the skip-NA mean `a` of the
heat-score slopes is defined and nonzero, every heat-score row of the
combined trend table receives `heat_score_plus = slope / a * 100` (rows
with undefined heat_score contribute nothing to the mean and keep an
undefined `heat_score_plus`), every other row's `heat_score_plus` is
undefined, and with no TrendPoints at all the normalization step is not
attempted. When the mean is zero the quotient is not a real number
(float `inf`/`NaN`), so the claimed equation cannot hold there. -/
theorem heat_plus_normalization (rows : List TrendPoint) (a : Rat)
    (hne : rows ≠ [])
    (havg : seriesMean ((rows.filter (fun r => r.metric == "heat_score")).map
        (fun r => r.slope)) = some a)
    (ha : a ≠ 0) :
    combine_trend_table [] = none
    ∧ combine_trend_table rows
      = some (rows.map (fun r =>
          { username := r.username, metric := r.metric,
              slope_window := r.slope_window, slope := r.slope,
              heat_score_plus :=
                if r.metric == "heat_score"
                then r.slope.map (fun v => v / a * 100) else none })) := by
  have hheat : rows.filter (fun r => r.metric == "heat_score") ≠ [] := by
    intro hcon
    rw [hcon] at havg
    simp [seriesMean] at havg
  refine ⟨rfl, ?_⟩
  rw [combine_trend_table_eq rows hne hheat]
  congr 1
  apply List.map_congr_left
  intro r _
  by_cases hm : (r.metric == "heat_score") = true
  · rw [if_pos hm, if_pos hm, havg]
    cases hs : r.slope with
    | none => rfl
    | some v => simp [heat_plus, ha]
  · rw [if_neg hm, if_neg hm]

/-- A three-entity cohort whose heat scores are 10, 20, 30. -/
def cohortDemo : List TrendPoint :=
  [⟨"a", "heat_score", "engagement_weighted", some 10⟩,
   ⟨"b", "heat_score", "engagement_weighted", some 20⟩,
   ⟨"c", "heat_score", "engagement_weighted", some 30⟩]

/-- Witness for C6 at the §8 cohort: mean 20, heat_score_plus values
50, 100, 150. -/
theorem heat_plus_normalization_witness :
    cohortDemo ≠ []
    ∧ seriesMean ((cohortDemo.filter (fun r => r.metric == "heat_score")).map
        (fun r => r.slope)) = some 20
    ∧ (combine_trend_table cohortDemo).map (fun t => t.map
        (fun x => x.heat_score_plus))
      = some [some 50, some 100, some 150] := by
  have havg : seriesMean ((cohortDemo.filter (fun r => r.metric == "heat_score")).map
      (fun r => r.slope)) = some 20 := by
    show seriesMean [some 10, some 20, some 30] = some 20
    norm_num [seriesMean, List.filterMap_cons, id]
  refine ⟨by decide, havg, ?_⟩
  have h := (heat_plus_normalization cohortDemo 20 (by decide) havg
    (by norm_num)).2
  rw [h]
  norm_num [cohortDemo]

/-- A two-entity cohort with opposite heat scores 10 and −10: the cohort
mean is 0. -/
def oppositeRows : List TrendPoint :=
  [⟨"a", "heat_score", "engagement_weighted", some 10⟩,
   ⟨"b", "heat_score", "engagement_weighted", some (-10)⟩]

/-- C6 counterexample: with heat scores 10 and −10 the cohort mean is 0;
`value / mean * 100` is then not a real number (float division by zero),
and both heat-score rows end with an undefined `heat_score_plus` instead
of the value the claim's formula demands. -/
theorem heat_plus_zero_mean_cex :
    seriesMean ((oppositeRows.filter (fun r => r.metric == "heat_score")).map
      (fun r => r.slope)) = some 0
    ∧ (combine_trend_table oppositeRows).map (fun t => t.map
        (fun x => x.heat_score_plus))
      = some [none, none] := by
  have havg : seriesMean ((oppositeRows.filter (fun r => r.metric == "heat_score")).map
      (fun r => r.slope)) = some 0 := by
    show seriesMean [some 10, some (-10)] = some 0
    norm_num [seriesMean, List.filterMap_cons, id]
  refine ⟨havg, ?_⟩
  rw [combine_trend_table_eq oppositeRows (by decide)
    (by decide), havg]
  norm_num [oppositeRows, heat_plus]

theorem calculate_slopes_filter_velocity (df : List DailyRecord) (u : String)
    (hr : recentOf df ≠ []) (hp : prevOf df ≠ []) :
    (calculate_slopes df u).filter (fun r => r.metric == "velocity")
      = [{ username := u, metric := "velocity",
           slope_window := "14_day_delta", slope := some (velocityOf df) }] := by
  rw [calculate_slopes, List.filter_append]
  have h1 : (slope_rows df u).filter (fun r => r.metric == "velocity") = [] := rfl
  rw [h1, momentum_rows_pos df u hr hp]
  rfl

theorem calculate_slopes_filter_momentum (df : List DailyRecord) (u : String)
    (hr : recentOf df ≠ []) (hp : prevOf df ≠ []) :
    (calculate_slopes df u).filter (fun r => r.metric == "momentum_score")
      = [{ username := u, metric := "momentum_score",
           slope_window := "2wk_ratio", slope := momentumOf df }] := by
  rw [calculate_slopes, List.filter_append]
  have h1 : (slope_rows df u).filter (fun r => r.metric == "momentum_score") = [] := rfl
  rw [h1, momentum_rows_pos df u hr hp]
  rfl

/-- C10 (amended): whenever the momentum family is emitted, velocity and
heat_score are defined values and only momentum_score can be undefined,
exactly when prev's view sum is zero (not positive); every heat-score row
therefore enters the cohort normalization with a defined value, and it
receives a defined `heat_score_plus` whenever the cohort mean of the heat
scores is nonzero — but not when that mean is zero, where the float
quotient is not a real number. -/
theorem momentum_family_definedness (df : List DailyRecord) (u : String)
    (hr : recentOf df ≠ []) (hp : prevOf df ≠ []) :
    ((calculate_slopes df u).filter (fun r => r.metric == "velocity")).map
        (fun r => r.slope) = [some (velocityOf df)]
    ∧ ((calculate_slopes df u).filter (fun r => r.metric == "heat_score")).map
        (fun r => r.slope) = [some (heatOf df)]
    ∧ ((calculate_slopes df u).filter (fun r => r.metric == "momentum_score")).map
        (fun r => r.slope) = [momentumOf df]
    ∧ (momentumOf df = none ↔ sumViews (prevOf df) = 0)
    ∧ (∀ (rows : List TrendPoint) (t : List SlopeRow) (a : Rat),
        seriesMean ((rows.filter (fun r => r.metric == "heat_score")).map
          (fun r => r.slope)) = some a →
        a ≠ 0 →
        combine_trend_table rows = some t →
        ∀ x ∈ t, x.metric = "heat_score" → x.slope.isSome = true →
          x.heat_score_plus.isSome = true) := by
  refine ⟨?_, ?_, ?_, ?_, ?_⟩
  · rw [calculate_slopes_filter_velocity df u hr hp]
    rfl
  · rw [calculate_slopes_filter_heat df u hr hp]
    rfl
  · rw [calculate_slopes_filter_momentum df u hr hp]
    rfl
  · rw [momentumOf]
    by_cases h : 0 < sumViews (prevOf df)
    · rw [if_pos h]
      constructor
      · intro hcon
        cases hcon
      · intro h0
        omega
    · rw [if_neg h]
      constructor
      · intro _
        omega
      · intro _
        rfl
  · intro rows t a havg ha hcomb x hx hxm hxs
    have hne2 : rows ≠ [] := by
      intro hcon
      rw [hcon] at hcomb
      exact Option.noConfusion hcomb
    have hheat2 : rows.filter (fun r => r.metric == "heat_score") ≠ [] := by
      intro hcon
      rw [hcon] at havg
      simp [seriesMean] at havg
    rw [combine_trend_table_eq rows hne2 hheat2] at hcomb
    have ht := Option.some.inj hcomb
    subst ht
    rcases List.mem_map.mp hx with ⟨r0, _, hfr⟩
    subst hfr
    have hm0 : r0.metric = "heat_score" := hxm
    have hmb : (r0.metric == "heat_score") = true := by
      rw [hm0]
      decide
    have hs0 : r0.slope.isSome = true := hxs
    rcases Option.isSome_iff_exists.mp hs0 with ⟨v, hv⟩
    show (if (r0.metric == "heat_score") = true then
        heat_plus (seriesMean ((rows.filter
          (fun r => r.metric == "heat_score")).map (fun r => r.slope))) r0.slope
      else none).isSome = true
    rw [if_pos hmb, havg, hv]
    simp [heat_plus, ha]

/-- Witness for the amended C10 at the reachable entity `postsV`: the
emitted velocity and heat rows carry defined values. -/
theorem momentum_family_definedness_witness :
    recentOf (build_daily_base postsV) ≠ []
    ∧ prevOf (build_daily_base postsV) ≠ []
    ∧ ((calculate_slopes (build_daily_base postsV) "u").filter
        (fun r => r.metric == "velocity")).map (fun r => r.slope)
      = [some (velocityOf (build_daily_base postsV))] :=
  ⟨by decide, by decide,
    (momentum_family_definedness (build_daily_base postsV) "u"
      (by decide) (by decide)).1⟩

/-- The trend rows of the velocity-0 entity `postsV`, whose aggregation
succeeds (it posts every day with at least one view). -/
def cohortV : List TrendPoint := calculate_slopes (build_daily_base postsV) "a"

/-- C10 counterexample: `postsV` is a reachable entity (its aggregation
returns the table), its heat_score is the defined value 0 (velocity 0),
so the one-entity cohort mean is 0 and the normalization divides by
zero: the heat-score row ends with an undefined `heat_score_plus`,
refuting the claim that every heat row entering the normalization
receives a defined `heat_score_plus`. -/
theorem heat_defined_plus_undefined_cex :
    build_daily_stats postsV = .ok (build_daily_base postsV)
    ∧ (cohortV.filter (fun r => r.metric == "heat_score")).map (fun r => r.slope)
      = [some (0 : Rat)]
    ∧ (combine_trend_table cohortV).map (fun t => (t.filter
        (fun x => x.metric == "heat_score")).map (fun x => x.heat_score_plus))
      = some [none] := by
  have hrA : recentOf (build_daily_base postsV) ≠ [] := by decide
  have hpA : prevOf (build_daily_base postsV) ≠ [] := by decide
  have hfilter : cohortV.filter (fun r => r.metric == "heat_score")
      = [{ username := "a", metric := "heat_score",
           slope_window := "engagement_weighted",
           slope := some (heatOf (build_daily_base postsV)) }] :=
    calculate_slopes_filter_heat (build_daily_base postsV) "a" hrA hpA
  have hheat0 : heatOf (build_daily_base postsV) = 0 := by
    have h1 : sumViews (recentOf (build_daily_base postsV)) = 15 := by decide
    have h2 : sumViews (prevOf (build_daily_base postsV)) = 15 := by decide
    rw [heatOf, velocityOf, h1, h2]
    simp
  have hne : cohortV ≠ [] := by decide
  have hheatne : cohortV.filter (fun r => r.metric == "heat_score") ≠ [] := by
    rw [hfilter]
    exact List.cons_ne_nil _ _
  have havg : seriesMean ((cohortV.filter (fun r => r.metric == "heat_score")).map
      (fun r => r.slope)) = some 0 := by
    rw [hfilter]
    show seriesMean [some (heatOf (build_daily_base postsV))] = some 0
    rw [hheat0]
    norm_num [seriesMean, List.filterMap_cons, id]
  refine ⟨rfl, ?_, ?_⟩
  · rw [hfilter]
    simp [hheat0]
  · rw [combine_trend_table_eq cohortV hne hheatne, havg]
    rw [Option.map_some']
    refine congrArg some ?_
    rw [List.filter_map]
    have hsw : List.filter ((fun (x : SlopeRow) => x.metric == "heat_score") ∘
        (fun r : TrendPoint =>
          ({ username := r.username, metric := r.metric,
              slope_window := r.slope_window, slope := r.slope,
              heat_score_plus :=
                if (r.metric == "heat_score") = true
                then heat_plus (some 0) r.slope else none } : SlopeRow))) cohortV
        = List.filter (fun r => r.metric == "heat_score") cohortV :=
      List.filter_congr (fun r _ => rfl)
    rw [hsw, hfilter]
    simp [heat_plus, hheat0]
